import Mathlib

/-!
Shallow embedding of the auth-microservice core (Role permissions, User
credential/lockout state, refresh-token store, and the service/middleware
flows built on them), together with theorems settling the spec claims.

Conventions: timestamps are milliseconds as `Nat` (`Date.now()`); MongoDB
documents are Lean structures; a collection is a `List` of documents;
`findOne` is `List.find?`; fallible service operations return `Except`.
Hash functions (bcrypt, sha256) and JWT signing are external collaborators
and are passed in as parameters.
-/

namespace AuthMicro

/-! ## Role model (roleSchema, src/unnamed/part_000) -/

structure Permission where
  resource : String
  actions : List String
deriving DecidableEq, Repr

structure Role where
  name : String
  permissions : List Permission
deriving DecidableEq, Repr

/-- `this.permissions.find((p) => p.resource === resource)` -/
def findPermission (role : Role) (resource : String) : Option Permission :=
  role.permissions.find? (fun p => p.resource == resource)

/-- `roleSchema.methods.hasPermission`: the entry for `resource` must list
`action` or the `manage` wildcard; no entry means `false`. -/
def hasPermission (role : Role) (resource action : String) : Bool :=
  match findPermission role resource with
  | none => false
  | some p => p.actions.contains action || p.actions.contains "manage"

/-- In-place mutation of the first entry matching `resource`: push `action`
onto its action list unless already present (`permission.actions.push`). -/
def addToFirst : List Permission → String → String → List Permission
  | [], _, _ => []
  | p :: ps, resource, action =>
    if p.resource == resource then
      (if p.actions.contains action then p else { p with actions := p.actions ++ [action] }) :: ps
    else
      p :: addToFirst ps resource action

/-- `roleSchema.methods.addPermission`: mutate the existing entry for the
resource, or push a fresh `{ resource, actions: [action] }` entry. -/
def addPermission (role : Role) (resource action : String) : Role :=
  if (findPermission role resource).isSome then
    { role with permissions := addToFirst role.permissions resource action }
  else
    { role with permissions := role.permissions ++ [⟨resource, [action]⟩] }

/-- In-place mutation of the first entry matching `resource`: filter `action`
out of its action list (`permission.actions = permission.actions.filter`). -/
def removeFromFirst : List Permission → String → String → List Permission
  | [], _, _ => []
  | p :: ps, resource, action =>
    if p.resource == resource then
      { p with actions := p.actions.filter (fun a => a != action) } :: ps
    else
      p :: removeFromFirst ps resource action

/-- `roleSchema.methods.removePermission`: filter the action out of the
matching entry; if that empties the entry's action list, drop every entry
for that resource from the permission list. -/
def removePermission (role : Role) (resource action : String) : Role :=
  match findPermission role resource with
  | none => role
  | some p =>
    if (p.actions.filter (fun a => a != action)).length == 0 then
      { role with permissions := role.permissions.filter (fun q => !(q.resource == resource)) }
    else
      { role with permissions := removeFromFirst role.permissions resource action }

/-! ## User model (userSchema, src/server/models/User.js) -/

structure User where
  id : Nat
  email : String
  passwordHash : String
  isActive : Bool
  isLocked : Bool
  lockUntil : Option Nat
  loginAttempts : Nat
  lastLogin : Option Nat
  lastPasswordChange : Option Nat
  isEmailVerified : Bool
  emailVerificationToken : Option String
  emailVerificationExpires : Option Nat
  passwordResetToken : Option String
  passwordResetExpires : Option Nat
deriving DecidableEq, Repr

/-- Virtual `isAccountLocked`: `this.isLocked && this.lockUntil && this.lockUntil > Date.now()`. -/
def isAccountLocked (u : User) (now : Nat) : Bool :=
  u.isLocked && (match u.lockUntil with
                 | some t => decide (t > now)
                 | none => false)

/-- The `pre('save')` password hook: when the password field was modified,
store `hash(password)` and stamp `lastPasswordChange = Date.now()`. -/
def setPassword (hash : String → String) (u : User) (newPassword : String) (now : Nat) : User :=
  { u with passwordHash := hash newPassword, lastPasswordChange := some now }

/-- `userSchema.methods.generatePasswordResetToken` with the raw random value
passed in: store `sha256(raw)` and an expiry `now + PASSWORD_RESET_EXPIRE`
(default 3600000 ms). -/
def generatePasswordResetToken (hash : String → String) (u : User) (raw : String) (now : Nat) : User :=
  { u with passwordResetToken := some (hash raw),
           passwordResetExpires := some (now + 3600000) }

/-- `userSchema.methods.generateEmailVerificationToken` with the raw random
value passed in: store `sha256(raw)` and an expiry `now + 86400000` ms. -/
def generateEmailVerificationToken (hash : String → String) (u : User) (raw : String) (now : Nat) : User :=
  { u with emailVerificationToken := some (hash raw),
           emailVerificationExpires := some (now + 86400000) }

/-- The `findOne` query of `userSchema.statics.findByPasswordResetToken`:
`passwordResetToken: sha256(token)` and `passwordResetExpires > Date.now()`. -/
def matchesPasswordReset (hash : String → String) (u : User) (token : String) (now : Nat) : Bool :=
  u.passwordResetToken == some (hash token) &&
    (match u.passwordResetExpires with
     | some e => decide (e > now)
     | none => false)

/-- `userSchema.statics.findByPasswordResetToken` over a user collection. -/
def findByPasswordResetToken (hash : String → String) (db : List User) (token : String)
    (now : Nat) : Option User :=
  db.find? (fun u => matchesPasswordReset hash u token now)

/-- `userSchema.methods.incrementLoginAttempts`: an expired lock resets the
counter to 1 and clears the lock; otherwise increment the counter and, when
it crosses 5 on an unlocked account, lock for 2 hours. -/
def incrementLoginAttempts (u : User) (now : Nat) : User :=
  match u.lockUntil with
  | some t =>
    if t < now then
      { u with loginAttempts := 1, isLocked := false, lockUntil := none }
    else incrementStep u now
  | none => incrementStep u now
where
  incrementStep (u : User) (now : Nat) : User :=
    if u.loginAttempts + 1 ≥ 5 && !u.isLocked then
      { u with loginAttempts := u.loginAttempts + 1,
               isLocked := true,
               lockUntil := some (now + 2 * 60 * 60 * 1000) }
    else
      { u with loginAttempts := u.loginAttempts + 1 }

/-- `userSchema.methods.resetLoginAttempts`. -/
def resetLoginAttempts (u : User) (now : Nat) : User :=
  { u with loginAttempts := 0, isLocked := false, lockUntil := none, lastLogin := some now }

/-! ## Token model (tokenSchema, src/server/models/Token.js) -/

structure Token where
  id : Nat
  user : Nat
  token : String
  expiresAt : Nat
  isRevoked : Bool
  revokedAt : Option Nat
  revokedReason : Option String
  lastUsedAt : Nat
deriving DecidableEq, Repr

/-- `tokenSchema.methods.isExpired`: `this.expiresAt < Date.now()`. -/
def Token.isExpired (t : Token) (now : Nat) : Bool :=
  decide (t.expiresAt < now)

/-- `tokenSchema.methods.isValid`: not expired and not revoked. -/
def Token.isValid (t : Token) (now : Nat) : Bool :=
  !t.isExpired now && !t.isRevoked

/-- `tokenSchema.methods.revokeToken`: set the revoked flag, the revocation
timestamp and the reason. -/
def Token.revoke (t : Token) (now : Nat) (reason : String) : Token :=
  { t with isRevoked := true, revokedAt := some now, revokedReason := some reason }

/-- `tokenSchema.statics.findActiveToken`: `findOne` on token string,
`isRevoked: false`, `expiresAt > Date.now()`. -/
def findActiveToken (db : List Token) (token : String) (now : Nat) : Option Token :=
  db.find? (fun t => t.token == token && !t.isRevoked && decide (t.expiresAt > now))

/-- `tokenSchema.statics.revokeUserTokens`: `updateMany` on
`{ user: userId, isRevoked: false }`, setting the revocation fields. -/
def revokeUserTokens (db : List Token) (userId : Nat) (now : Nat) (reason : String) : List Token :=
  db.map (fun t =>
    if t.user == userId && !t.isRevoked then
      { t with isRevoked := true, revokedAt := some now, revokedReason := some reason }
    else t)

/-! ## JWT layer view and Authorization Gate
(`authenticate`, src/server/middleware/authMiddleware.js) -/

/-- Claims recovered by `verifyAccessToken`; `iat` is in seconds as in a JWT,
and the middleware converts it to milliseconds (`decoded.iat * 1000`). -/
structure Claims where
  userId : Nat
  iat : Nat
deriving DecidableEq, Repr

/-- Outcome of `verifyAccessToken` on a presented token string. -/
inductive JwtCheck where
  | valid (claims : Claims)
  | expired
  | malformed
deriving DecidableEq, Repr

inductive AuthError where
  | missingToken
  | tokenExpired
  | invalidToken
  | userNotFound
  | accountDeactivated
  | accountLocked
  | passwordChanged
deriving DecidableEq, Repr

/-- HTTP status attached to each `AppError` raised by `authenticate`. -/
def AuthError.status : AuthError → Nat
  | .missingToken => 401
  | .tokenExpired => 401
  | .invalidToken => 401
  | .userNotFound => 401
  | .accountDeactivated => 403
  | .accountLocked => 403
  | .passwordChanged => 401

/-- The `authenticate` middleware after header/cookie extraction: verify the
JWT, load the user, and run the status checks in source order, including the
password-change-after-issuance check
(`user.lastPasswordChange && user.lastPasswordChange > tokenIssuedAt`). -/
def authenticate (verify : String → JwtCheck) (findUser : Nat → Option User)
    (token : Option String) (now : Nat) : Except AuthError User :=
  match token with
  | none => .error .missingToken
  | some t =>
    match verify t with
    | .expired => .error .tokenExpired
    | .malformed => .error .invalidToken
    | .valid c =>
      match findUser c.userId with
      | none => .error .userNotFound
      | some u =>
        if !u.isActive then .error .accountDeactivated
        else if isAccountLocked u now then .error .accountLocked
        else
          match u.lastPasswordChange with
          | some lpc =>
            if lpc > c.iat * 1000 then .error .passwordChanged else .ok u
          | none => .ok u

/-! ## Login flow (`loginUser`, src/server/services/authService.js) -/

inductive LoginError where
  | invalidCredentials
  | accountLockedUntil (lockUntil : Nat)
  | accountDeactivated
deriving DecidableEq, Repr

def LoginError.status : LoginError → Nat
  | .invalidCredentials => 401
  | .accountLockedUntil _ => 403
  | .accountDeactivated => 403

/-- One login attempt against a found user, given whether
`comparePassword` would match: the source checks `isAccountLocked`, then
`isActive`, then the password, incrementing the failure counter on mismatch
and resetting it on success.  Returns the outcome and the user's new state. -/
def loginStep (u : User) (passwordMatches : Bool) (now : Nat) :
    Except LoginError Unit × User :=
  if isAccountLocked u now then
    (.error (.accountLockedUntil (u.lockUntil.getD 0)), u)
  else if !u.isActive then
    (.error .accountDeactivated, u)
  else if !passwordMatches then
    (.error .invalidCredentials, incrementLoginAttempts u now)
  else
    (.ok (), resetLoginAttempts u now)

/-! ## Refresh flow (`refreshAccessToken`, src/server/services/authService.js) -/

inductive RefreshError where
  | invalidToken
  | userNotFound
  | accountDeactivated
deriving DecidableEq, Repr

def RefreshError.status : RefreshError → Nat
  | .invalidToken => 401
  | .userNotFound => 404
  | .accountDeactivated => 403

/-- Result of a successful refresh: the identity the new access token is
minted for, and the token store after the `lastUsedAt` stamp. -/
structure RefreshOk where
  user : User
  newDb : List Token
deriving DecidableEq, Repr

/-- `refreshAccessToken`: look up an active persisted refresh token, stamp
`lastUsedAt`, load the user, and reject only a missing or deactivated user —
the account-lock state is never consulted. -/
def refreshAccessToken (db : List Token) (findUser : Nat → Option User)
    (refreshToken : String) (now : Nat) : Except RefreshError RefreshOk :=
  match findActiveToken db refreshToken now with
  | none => .error .invalidToken
  | some tok =>
    let db' := db.map (fun t => if t.token == refreshToken then { t with lastUsedAt := now } else t)
    match findUser tok.user with
    | none => .error .userNotFound
    | some u =>
      if !u.isActive then .error .accountDeactivated
      else .ok ⟨u, db'⟩

/-! ## Single-token revocation (`revokeToken`,
src/server/services/tokenService.js + Token.revokeToken) -/

inductive RevokeError where
  | tokenNotFound
deriving DecidableEq, Repr

def RevokeError.status : RevokeError → Nat
  | .tokenNotFound => 404

/-- `tokenService.revokeToken`: `findOne({ token })`, 404 when missing,
otherwise revoke the found document and save it back. -/
def serviceRevokeToken (db : List Token) (token : String) (now : Nat) (reason : String) :
    Except RevokeError (List Token) :=
  match db.find? (fun t => t.token == token) with
  | none => .error .tokenNotFound
  | some _ =>
    .ok (db.map (fun t => if t.token == token then t.revoke now reason else t))

/-! ## Resend-verification flow (`resendVerificationEmail`,
src/server/services/authService.js) -/

inductive ResendError where
  | userNotFound
  | alreadyVerified
deriving DecidableEq, Repr

def ResendError.status : ResendError → Nat
  | .userNotFound => 404
  | .alreadyVerified => 400

/-- `resendVerificationEmail`: look up the user by email (`u?` is the
`findOne` result), throw 404 when missing, throw 400 when already verified,
otherwise store a fresh verification token and succeed. -/
def resendVerificationEmail (hash : String → String) (u? : Option User)
    (raw : String) (now : Nat) : Except ResendError User :=
  match u? with
  | none => .error .userNotFound
  | some u =>
    if u.isEmailVerified then .error .alreadyVerified
    else .ok (generateEmailVerificationToken hash u raw now)

/-! ## Forgot/reset password (passwordController, src/unnamed/part_017) -/

/-- HTTP-level outcome: status code, success flag and message of the JSON
body sent by the controller. -/
structure HttpResponse where
  status : Nat
  success : Bool
  message : String
deriving DecidableEq, Repr

inductive ForgotError where
  | emailSendFailed
deriving DecidableEq, Repr

def ForgotError.status : ForgotError → Nat
  | .emailSendFailed => 500

/-- `forgotPassword`: a missing email answers 200 without touching any user;
a found email gets a reset token generated and saved, then either the
success response (email delivered) or, on delivery failure, the token fields
are cleared again and a 500 error is thrown.  Returns the response and the
user's resulting state. -/
def forgotPassword (hash : String → String) (u? : Option User) (raw : String)
    (now : Nat) (emailDelivered : Bool) :
    Except ForgotError (HttpResponse × Option User) :=
  match u? with
  | none =>
    .ok (⟨200, true, "If account exists, reset link sent."⟩, none)
  | some u =>
    let u' := generatePasswordResetToken hash u raw now
    if emailDelivered then
      .ok (⟨200, true, "Reset link sent"⟩, some u')
    else
      .error .emailSendFailed

/-- `resetPassword` applied to the owning user: set the new password (which
fires the re-hash / `lastPasswordChange` hook) and clear both reset fields,
making the token single-use. -/
def resetPasswordUser (hash : String → String) (u : User) (newPassword : String)
    (now : Nat) : User :=
  setPassword hash
    { u with passwordResetToken := none, passwordResetExpires := none }
    newPassword now

/-! ## Helper lemmas -/

/-- When resources are pairwise distinct (the schema keeps at most one
permission entry per resource), `find?` on a member's resource returns
exactly that member. -/
theorem find?_resource_of_mem (l : List Permission) (p : Permission)
    (hnd : (l.map Permission.resource).Nodup) (hmem : p ∈ l) :
    l.find? (fun q => q.resource == p.resource) = some p := by
  induction l with
  | nil => cases hmem
  | cons q qs ih =>
    simp only [List.map_cons, List.nodup_cons] at hnd
    rcases List.mem_cons.mp hmem with h | h
    · subst h
      simp [List.find?_cons_of_pos]
    · have hne : q.resource ≠ p.resource := by
        intro he
        exact hnd.1 (he ▸ List.mem_map_of_mem Permission.resource h)
      rw [List.find?_cons_of_neg]
      · exact ih hnd.2 h
      · simp [hne]

/-- Mutating the first entry for a resource by pushing an action it already
lists changes nothing. -/
theorem addToFirst_noop (l : List Permission) (r a : String) (p : Permission)
    (hfind : l.find? (fun q => q.resource == r) = some p) (ha : a ∈ p.actions) :
    addToFirst l r a = l := by
  induction l with
  | nil => simp at hfind
  | cons q qs ih =>
    rw [List.find?_cons] at hfind
    by_cases hq : (q.resource == r) = true
    · have hqp : q = p := by
        simp [hq] at hfind
        exact hfind
      subst hqp
      simp [addToFirst, hq, ha]
    · have hfind' : qs.find? (fun x => x.resource == r) = some p := by
        simp [hq] at hfind
        exact hfind
      simp [addToFirst, hq, ih hfind']

/-! ## Claim theorems -/

/-- Claim C3: for every role holding a permission entry for a resource `r`
whose action list contains `manage`, `hasPermission` returns true for every
action, including actions never explicitly added; and for every role holding
no entry for `r`, `hasPermission` returns false for every action. -/
theorem c3_manage_wildcard_and_no_entry (role : Role) (r : String) :
    ((role.permissions.map Permission.resource).Nodup →
      ∀ p ∈ role.permissions, p.resource = r → "manage" ∈ p.actions →
        ∀ a, hasPermission role r a = true) ∧
    ((∀ p ∈ role.permissions, p.resource ≠ r) →
      ∀ a, hasPermission role r a = false) := by
  constructor
  · intro hnd p hmem hres hman a
    have hfind : findPermission role r = some p := by
      rw [findPermission, ← hres]
      exact find?_resource_of_mem role.permissions p hnd hmem
    simp [hasPermission, hfind, hman]
  · intro hnone a
    have hfind : findPermission role r = none := by
      rw [findPermission]
      apply List.find?_eq_none.mpr
      intro x hx
      simp [hnone x hx]
    simp [hasPermission, hfind]

/-- Witness for C3 at a concrete role: a `manage`-only entry on `posts`
grants the never-added `delete` action, and the missing `users` resource
denies `read`. -/
theorem c3_manage_wildcard_and_no_entry_witness :
    hasPermission ⟨"admin", [⟨"posts", ["manage"]⟩]⟩ "posts" "delete" = true ∧
    hasPermission ⟨"admin", [⟨"posts", ["manage"]⟩]⟩ "users" "read" = false := by
  constructor
  · exact (c3_manage_wildcard_and_no_entry ⟨"admin", [⟨"posts", ["manage"]⟩]⟩ "posts").1
      (by decide) ⟨"posts", ["manage"]⟩ (by decide) rfl (by decide) "delete"
  · exact (c3_manage_wildcard_and_no_entry ⟨"admin", [⟨"posts", ["manage"]⟩]⟩ "users").2
      (by decide) "read"

/-- Claim C7: when the entry for `r` holds exactly one action `a`,
`removePermission r a` deletes the entry entirely, after which
`hasPermission` is false for every action on `r`; and `addPermission` of an
already-present action is a no-op. -/
theorem c7_remove_collapses_add_idempotent (role : Role) (r a : String) (p : Permission)
    (hfind : findPermission role r = some p) :
    (p.actions = [a] → ∀ x, hasPermission (removePermission role r a) r x = false) ∧
    (a ∈ p.actions → addPermission role r a = role) := by
  constructor
  · intro hact x
    have hnone : (role.permissions.filter (fun q => !(q.resource == r))).find?
        (fun q => q.resource == r) = none := by
      apply List.find?_eq_none.mpr
      intro q hq
      have h2 := (List.mem_filter.mp hq).2
      simp only [Bool.not_eq_eq_eq_not, Bool.not_true, beq_eq_false_iff_ne] at h2
      simp [h2]
    simp only [removePermission, hfind, hact]
    simp [hasPermission, findPermission, hnone]
  · intro ha
    rw [addPermission]
    simp only [hfind, Option.isSome_some, if_pos]
    rw [addToFirst_noop role.permissions r a p hfind ha]

/-- Witness for C7 at a concrete role: removing the only `read` action on
`posts` collapses the entry (so even `read` itself is denied afterwards), and
re-adding `read` beforehand changes nothing. -/
theorem c7_remove_collapses_add_idempotent_witness :
    hasPermission (removePermission ⟨"viewer", [⟨"posts", ["read"]⟩]⟩ "posts" "read")
      "posts" "manage" = false ∧
    addPermission ⟨"viewer", [⟨"posts", ["read"]⟩]⟩ "posts" "read" =
      ⟨"viewer", [⟨"posts", ["read"]⟩]⟩ := by
  constructor
  · exact (c7_remove_collapses_add_idempotent ⟨"viewer", [⟨"posts", ["read"]⟩]⟩
      "posts" "read" ⟨"posts", ["read"]⟩ (by decide)).1 rfl "manage"
  · exact (c7_remove_collapses_add_idempotent ⟨"viewer", [⟨"posts", ["read"]⟩]⟩
      "posts" "read" ⟨"posts", ["read"]⟩ (by decide)).2 (by decide)

/-- A failed attempt on an unlocked, never-locked, active account below the
threshold only increments the counter. -/
theorem loginStep_fail_below (u : User) (t : Nat) (h1 : u.isLocked = false)
    (h2 : u.lockUntil = none) (h3 : u.isActive = true) (h4 : u.loginAttempts + 1 < 5) :
    loginStep u false t =
      (.error .invalidCredentials, { u with loginAttempts := u.loginAttempts + 1 }) := by
  have h5 : ¬ (u.loginAttempts + 1 ≥ 5) := Nat.not_le.mpr h4
  simp [loginStep, isAccountLocked, h1, h2, h3, incrementLoginAttempts,
        incrementLoginAttempts.incrementStep, h5]

/-- A failed attempt crossing the threshold locks the account for 2 hours. -/
theorem loginStep_fail_crossing (u : User) (t : Nat) (h1 : u.isLocked = false)
    (h2 : u.lockUntil = none) (h3 : u.isActive = true) (h4 : u.loginAttempts + 1 ≥ 5) :
    loginStep u false t =
      (.error .invalidCredentials,
       { u with loginAttempts := u.loginAttempts + 1, isLocked := true,
                lockUntil := some (t + 2 * 60 * 60 * 1000) }) := by
  simp [loginStep, isAccountLocked, h1, h2, h3, incrementLoginAttempts,
        incrementLoginAttempts.incrementStep, h4]

/-- Claim C2: from a fresh account, four failed logins leave it unlocked with
counter 4; the fifth locks it until two hours after that attempt; and while
the lock is active a sixth attempt is rejected with the locked-account error
for every password outcome, with the state untouched. -/
theorem c2_lockout_threshold (u : User) (t1 t2 t3 t4 t5 t6 : Nat)
    (h1 : u.loginAttempts = 0) (h2 : u.isLocked = false) (h3 : u.lockUntil = none)
    (h4 : u.isActive = true) (h6 : t6 < t5 + 2 * 60 * 60 * 1000) :
    (loginStep u false t1).2 = { u with loginAttempts := 1 } ∧
    ((((loginStep (loginStep (loginStep ((loginStep u false t1).2) false t2).2
        false t3).2 false t4).2).loginAttempts = 4) ∧
     (((loginStep (loginStep (loginStep ((loginStep u false t1).2) false t2).2
        false t3).2 false t4).2).isLocked = false)) ∧
    ((loginStep (loginStep (loginStep (loginStep ((loginStep u false t1).2) false t2).2
        false t3).2 false t4).2 false t5).2 =
      { u with loginAttempts := 5, isLocked := true,
               lockUntil := some (t5 + 2 * 60 * 60 * 1000) }) ∧
    (∀ b, loginStep
        { u with loginAttempts := 5, isLocked := true,
                 lockUntil := some (t5 + 2 * 60 * 60 * 1000) } b t6 =
      (.error (.accountLockedUntil (t5 + 2 * 60 * 60 * 1000)),
       { u with loginAttempts := 5, isLocked := true,
                lockUntil := some (t5 + 2 * 60 * 60 * 1000) })) := by
  have e1 : (loginStep u false t1).2 = { u with loginAttempts := 1 } := by
    rw [loginStep_fail_below u t1 h2 h3 h4 (by omega)]
    simp [h1]
  have e2 : (loginStep { u with loginAttempts := 1 } false t2).2 =
      { u with loginAttempts := 2 } := by
    rw [loginStep_fail_below _ t2 (by simp [h2]) (by simp [h3]) (by simp [h4]) (by simp)]
  have e3 : (loginStep { u with loginAttempts := 2 } false t3).2 =
      { u with loginAttempts := 3 } := by
    rw [loginStep_fail_below _ t3 (by simp [h2]) (by simp [h3]) (by simp [h4]) (by simp)]
  have e4 : (loginStep { u with loginAttempts := 3 } false t4).2 =
      { u with loginAttempts := 4 } := by
    rw [loginStep_fail_below _ t4 (by simp [h2]) (by simp [h3]) (by simp [h4]) (by simp)]
  have e5 : (loginStep { u with loginAttempts := 4 } false t5).2 =
      { u with loginAttempts := 5, isLocked := true,
               lockUntil := some (t5 + 2 * 60 * 60 * 1000) } := by
    rw [loginStep_fail_crossing _ t5 (by simp [h2]) (by simp [h3]) (by simp [h4]) (by simp)]
  refine ⟨e1, ?_, ?_, ?_⟩
  · rw [e1, e2, e3, e4]
    exact ⟨rfl, h2⟩
  · rw [e1, e2, e3, e4, e5]
  · intro b
    simp [loginStep, isAccountLocked, h6]

/-- A concrete fresh local account used by witnesses. -/
def sampleFresh : User :=
  ⟨1, "a@x.com", "h", true, false, none, 0, none, none, false, none, none, none, none⟩

/-- Witness for C2 at a concrete fresh user and concrete attempt times. -/
theorem c2_lockout_threshold_witness :
    (loginStep (loginStep (loginStep (loginStep (loginStep sampleFresh false 10).2
        false 20).2 false 30).2 false 40).2 false 50).2 =
      { sampleFresh with loginAttempts := 5, isLocked := true,
                         lockUntil := some (50 + 2 * 60 * 60 * 1000) } ∧
    loginStep { sampleFresh with loginAttempts := 5, isLocked := true,
                                 lockUntil := some (50 + 2 * 60 * 60 * 1000) } true 60 =
      (.error (.accountLockedUntil (50 + 2 * 60 * 60 * 1000)),
       { sampleFresh with loginAttempts := 5, isLocked := true,
                          lockUntil := some (50 + 2 * 60 * 60 * 1000) }) := by
  have h := c2_lockout_threshold sampleFresh 10 20 30 40 50 60 rfl rfl rfl rfl (by omega)
  exact ⟨h.2.2.1, h.2.2.2 true⟩

/-- Claim C1: when the password was changed after the token's issued-at
time, a Gate check that passes signature/expiry verification and the
account-status checks rejects with the 401 password-changed error; and the
password-save hook always stamps `lastPasswordChange` with the save time. -/
theorem c1_password_change_gate (verify : String → JwtCheck) (findUser : Nat → Option User)
    (t : String) (c : Claims) (u : User) (now lpc : Nat)
    (hv : verify t = .valid c) (hu : findUser c.userId = some u)
    (hactive : u.isActive = true) (hlock : isAccountLocked u now = false)
    (hlpc : u.lastPasswordChange = some lpc) (hafter : lpc > c.iat * 1000) :
    (authenticate verify findUser (some t) now = .error .passwordChanged ∧
     AuthError.status .passwordChanged = 401) ∧
    (∀ (hash : String → String) (v : User) (pw : String) (tsave : Nat),
      (setPassword hash v pw tsave).lastPasswordChange = some tsave) := by
  refine ⟨⟨?_, rfl⟩, fun hash v pw tsave => rfl⟩
  simp [authenticate, hv, hu, hactive, hlock, hlpc, hafter]

/-- Witness for C1: a concrete token issued at time 0 for a user whose
password changed at time 5 is rejected at time 100, and a concrete
password save stamps the change time. -/
theorem c1_password_change_gate_witness :
    authenticate (fun _ => .valid ⟨1, 0⟩)
      (fun _ => some { sampleFresh with lastPasswordChange := some 5 })
      (some "tok") 100 = .error .passwordChanged ∧
    (setPassword (fun s => s) sampleFresh "pw" 7).lastPasswordChange = some 7 := by
  have h := c1_password_change_gate (fun _ => .valid ⟨1, 0⟩)
    (fun _ => some { sampleFresh with lastPasswordChange := some 5 }) "tok" ⟨1, 0⟩
    { sampleFresh with lastPasswordChange := some 5 } 100 5 rfl rfl rfl rfl rfl (by decide)
  exact ⟨h.1.1, h.2 (fun s => s) sampleFresh "pw" 7⟩

/-- Claim C5: `revokeUserTokens` marks every non-revoked token of the user
as revoked with the revocation timestamp and reason, leaves that user zero
valid tokens, and leaves every other user's tokens completely unchanged. -/
theorem c5_revoke_user_tokens_frame (db : List Token) (userId now : Nat) (reason : String) :
    (∀ (i : Nat) (t : Token), db[i]? = some t → t.user = userId → t.isRevoked = false →
      (revokeUserTokens db userId now reason)[i]? =
        some { t with isRevoked := true, revokedAt := some now,
                      revokedReason := some reason }) ∧
    (∀ (i : Nat) (t : Token), db[i]? = some t → t.user ≠ userId →
      (revokeUserTokens db userId now reason)[i]? = some t) ∧
    (∀ t ∈ revokeUserTokens db userId now reason, t.user = userId →
      ∀ tm, t.isValid tm = false) := by
  refine ⟨?_, ?_, ?_⟩
  · intro i t hget huser hrev
    rw [revokeUserTokens, List.getElem?_map, hget]
    simp [huser, hrev]
  · intro i t hget huser
    rw [revokeUserTokens, List.getElem?_map, hget]
    simp [huser]
  · intro t ht huser tm
    rcases List.mem_map.mp ht with ⟨s, _, hf⟩
    by_cases hc : (s.user == userId && !s.isRevoked) = true
    · rw [if_pos hc] at hf
      simp [← hf, Token.isValid]
    · rw [if_neg hc] at hf
      subst hf
      have hrev : s.isRevoked = true := by
        simp [huser] at hc
        exact hc
      simp [Token.isValid, hrev]

/-- Witness for C5 on a concrete two-user store: user 1's live token is
revoked with timestamp and reason, user 2's token is untouched, and user 1
ends with no valid token. -/
theorem c5_revoke_user_tokens_frame_witness :
    (revokeUserTokens [⟨1, 1, "a", 100, false, none, none, 0⟩,
        ⟨2, 2, "b", 100, false, none, none, 0⟩] 1 50 "Password changed")[0]? =
      some ⟨1, 1, "a", 100, true, some 50, some "Password changed", 0⟩ ∧
    (revokeUserTokens [⟨1, 1, "a", 100, false, none, none, 0⟩,
        ⟨2, 2, "b", 100, false, none, none, 0⟩] 1 50 "Password changed")[1]? =
      some ⟨2, 2, "b", 100, false, none, none, 0⟩ ∧
    Token.isValid ⟨1, 1, "a", 100, true, some 50, some "Password changed", 0⟩ 60 = false := by
  have h := c5_revoke_user_tokens_frame
    [⟨1, 1, "a", 100, false, none, none, 0⟩, ⟨2, 2, "b", 100, false, none, none, 0⟩]
    1 50 "Password changed"
  refine ⟨h.1 0 ⟨1, 1, "a", 100, false, none, none, 0⟩ rfl rfl rfl,
          h.2.1 1 ⟨2, 2, "b", 100, false, none, none, 0⟩ rfl (by decide), ?_⟩
  have hmem : (⟨1, 1, "a", 100, true, some 50, some "Password changed", 0⟩ : Token) ∈
      revokeUserTokens [⟨1, 1, "a", 100, false, none, none, 0⟩,
        ⟨2, 2, "b", 100, false, none, none, 0⟩] 1 50 "Password changed" := by decide
  exact h.2.2 _ hmem rfl 60

/-- Claim C6: `revokeToken` marks the token revoked with the reason string
and the revocation timestamp; revoking a second time is idempotent and at
the service layer is not an error; after both the first and the second
revocation the token is invalid at every time. -/
theorem c6_revoke_idempotent (t : Token) (now : Nat) (reason : String) :
    ((t.revoke now reason).isRevoked = true ∧
     (t.revoke now reason).revokedAt = some now ∧
     (t.revoke now reason).revokedReason = some reason) ∧
    ((t.revoke now reason).revoke now reason = t.revoke now reason) ∧
    (∀ tm, (t.revoke now reason).isValid tm = false ∧
      ((t.revoke now reason).revoke now reason).isValid tm = false) ∧
    (∀ now₂ reason₂,
      serviceRevokeToken [t.revoke now reason] t.token now₂ reason₂ =
        .ok [(t.revoke now reason).revoke now₂ reason₂]) := by
  refine ⟨⟨rfl, rfl, rfl⟩, rfl,
    fun tm => ⟨by simp [Token.isValid, Token.revoke], by simp [Token.isValid, Token.revoke]⟩, ?_⟩
  intro now₂ reason₂
  simp [serviceRevokeToken, Token.revoke]

/-- Claim C8: a freshly generated password-reset token is found by its raw
value before expiry and resolves to the owning user; any different raw
string, a lookup after expiry, and a lookup after the token was consumed by
a successful reset all return nothing. -/
theorem c8_reset_token_roundtrip (hash : String → String) (u : User) (raw : String)
    (now : Nat) (hinj : Function.Injective hash) :
    (∀ t, t < now + 3600000 →
      findByPasswordResetToken hash [generatePasswordResetToken hash u raw now] raw t =
        some (generatePasswordResetToken hash u raw now)) ∧
    (∀ s, s ≠ raw → ∀ t,
      findByPasswordResetToken hash [generatePasswordResetToken hash u raw now] s t =
        none) ∧
    (∀ t, now + 3600000 ≤ t →
      findByPasswordResetToken hash [generatePasswordResetToken hash u raw now] raw t =
        none) ∧
    (∀ np tr t,
      findByPasswordResetToken hash
        [resetPasswordUser hash (generatePasswordResetToken hash u raw now) np tr] raw t =
        none) := by
  refine ⟨?_, ?_, ?_, ?_⟩
  · intro t ht
    simp [findByPasswordResetToken, matchesPasswordReset, generatePasswordResetToken, ht]
  · intro s hs t
    have hne : hash raw ≠ hash s := fun he => hs (hinj he).symm
    simp [findByPasswordResetToken, matchesPasswordReset, generatePasswordResetToken, hne]
  · intro t ht
    have hnot : ¬ (now + 3600000 > t) := by omega
    simp [findByPasswordResetToken, matchesPasswordReset, generatePasswordResetToken, hnot]
  · intro np tr t
    simp [findByPasswordResetToken, matchesPasswordReset, resetPasswordUser, setPassword]

/-- Witness for C8 with the identity hash: the raw value "r" is found before
expiry, and the different raw value "x" is not. -/
theorem c8_reset_token_roundtrip_witness :
    findByPasswordResetToken (fun s => s)
      [generatePasswordResetToken (fun s => s) sampleFresh "r" 0] "r" 5 =
      some (generatePasswordResetToken (fun s => s) sampleFresh "r" 0) ∧
    findByPasswordResetToken (fun s => s)
      [generatePasswordResetToken (fun s => s) sampleFresh "r" 0] "x" 5 = none := by
  have h := c8_reset_token_roundtrip (fun s => s) sampleFresh "r" 0 (fun _ _ hab => hab)
  exact ⟨h.1 5 (by omega), h.2.1 "x" (by decide) 5⟩

/-- Claim C10: for a user whose lock is currently active but who is still
active and holds a live refresh token, `refreshAccessToken` succeeds — the
refresh flow never consults the account-lock state. -/
theorem c10_refresh_ignores_lock (db : List Token) (findUser : Nat → Option User)
    (s : String) (now : Nat) (tok : Token) (u : User) (lockT : Nat)
    (htok : findActiveToken db s now = some tok)
    (hu : findUser tok.user = some u) (hactive : u.isActive = true)
    (hlocked : u.isLocked = true) (hlockU : u.lockUntil = some lockT)
    (hfut : now < lockT) :
    isAccountLocked u now = true ∧
    refreshAccessToken db findUser s now =
      .ok ⟨u, db.map (fun t => if t.token == s then { t with lastUsedAt := now } else t)⟩ := by
  constructor
  · simp [isAccountLocked, hlocked, hlockU, hfut]
  · simp [refreshAccessToken, htok, hu, hactive]

/-- Witness for C10: a concretely locked-but-active user with a live refresh
token still gets a successful refresh. -/
theorem c10_refresh_ignores_lock_witness :
    isAccountLocked { sampleFresh with isLocked := true, lockUntil := some 1000 } 50 = true ∧
    refreshAccessToken [⟨1, 1, "rt", 100, false, none, none, 0⟩]
      (fun _ => some { sampleFresh with isLocked := true, lockUntil := some 1000 }) "rt" 50 =
      .ok ⟨{ sampleFresh with isLocked := true, lockUntil := some 1000 },
           [⟨1, 1, "rt", 100, false, none, none, 50⟩]⟩ := by
  have h := c10_refresh_ignores_lock [⟨1, 1, "rt", 100, false, none, none, 0⟩]
    (fun _ => some { sampleFresh with isLocked := true, lockUntil := some 1000 }) "rt" 50
    ⟨1, 1, "rt", 100, false, none, none, 0⟩
    { sampleFresh with isLocked := true, lockUntil := some 1000 } 1000
    (by decide) rfl rfl rfl rfl (by omega)
  exact ⟨h.1, by rw [h.2]; rfl⟩

/-- Counterexample to C9 as stated: a resend-verification request for an
email with no matching user is not a silent no-op — the service fails with
the 404 user-not-found error. -/
theorem c9_counterexample :
    resendVerificationEmail (fun s => s) none "t" 0 = .error .userNotFound ∧
    ResendError.status .userNotFound = 404 := ⟨rfl, rfl⟩

/-- Claim C9 amended: a resend-verification request for a missing email
fails with the 404 user-not-found error rather than silently no-opping,
while an already-verified account fails with the reportable 400
already-verified error. -/
theorem c9_amended (hash : String → String) (raw : String) (now : Nat) :
    (resendVerificationEmail hash none raw now = .error .userNotFound ∧
     ResendError.status .userNotFound = 404) ∧
    (∀ u : User, u.isEmailVerified = true →
      resendVerificationEmail hash (some u) raw now = .error .alreadyVerified ∧
      ResendError.status .alreadyVerified = 400) := by
  refine ⟨⟨rfl, rfl⟩, fun u hv => ⟨?_, rfl⟩⟩
  simp [resendVerificationEmail, hv]

/-- Witness for the amended C9 at a concrete verified user. -/
theorem c9_amended_witness :
    resendVerificationEmail (fun s => s)
      (some { sampleFresh with isEmailVerified := true }) "t" 0 =
      .error .alreadyVerified := by
  exact ((c9_amended (fun s => s) "t" 0).2 { sampleFresh with isEmailVerified := true } rfl).1

/-- Counterexample to C4 as stated: with email delivery succeeding, the
found-email and missing-email forgot-password responses carry different
messages, so the responses are not identical. -/
theorem c4_counterexample :
    forgotPassword (fun s => s) (some sampleFresh) "r" 0 true =
      .ok (⟨200, true, "Reset link sent"⟩,
           some (generatePasswordResetToken (fun s => s) sampleFresh "r" 0)) ∧
    forgotPassword (fun s => s) none "r" 0 true =
      .ok (⟨200, true, "If account exists, reset link sent."⟩, none) ∧
    ("Reset link sent" : String) ≠ "If account exists, reset link sent." := by
  exact ⟨rfl, rfl, by decide⟩

/-- Claim C4 amended: the found-email and missing-email requests both
receive HTTP status 200 with `success = true`, but the message strings
differ, so the message text (and only it) reveals account existence. -/
theorem c4_amended (hash : String → String) (u : User) (raw : String) (now : Nat) :
    ∃ rFound rMissing uOut,
      forgotPassword hash (some u) raw now true = .ok (rFound, uOut) ∧
      forgotPassword hash none raw now true = .ok (rMissing, none) ∧
      rFound.status = 200 ∧ rMissing.status = 200 ∧
      rFound.success = true ∧ rMissing.success = true ∧
      rFound.message ≠ rMissing.message := by
  exact ⟨_, _, _, rfl, rfl, rfl, rfl, rfl, rfl, by decide⟩

end AuthMicro
